import Mathlib

/-!
Shallow embedding of `src/index.js` of the signalk-redhead-daq plugin.

The plugin polls `http://<address>/state.xml`, translates the returned keyed
device records into Signal K path/value observations, tracks device
availability with the module flag `sentUnavailableAlarm`, and exposes the last
connection outcome through `plugin.statusMessage()`.

JavaScript values that matter to the claims (booleans, numbers, strings,
arrays, objects, `undefined`) are embedded as `JsVal`, with numbers as exact
rationals.  Fallible evaluation (a `ReferenceError` on an undeclared
identifier, a `TypeError` on a property access of `null`/`undefined`) is
embedded as `Except String`.  Side effects of one `request` callback run —
the `app.handleMessage` publications and the mutations of `statusMessage`
and `sentUnavailableAlarm` — are collected explicitly in `TickResult`,
preserving their source order, together with the uncaught exception (if any)
that aborted the rest of the callback.
-/

namespace RedheadDaq

/-- Embedded JavaScript value, as used by the observation payloads. -/
inductive JsVal where
  | undef
  | bool (b : Bool)
  | num (q : ℚ)
  | str (s : String)
  | arr (elems : List JsVal)
  | obj (fields : List (String × JsVal))

/-- One `{path, value}` entry of a delta's `values` array. -/
structure PathValue where
  path : String
  value : JsVal

/-- One argument of `app.handleMessage`: `{updates: [{values: [...]}, ...]}`.
Each inner list is the `values` array of one update. -/
structure Delta where
  updates : List (List PathValue)

/-- JS truthiness of the `sentUnavailableAlarm` variable: it starts out
`undefined` (falsy) and is later assigned booleans. -/
def truthyBool : Option Bool → Bool
  | none => false
  | some b => b

/-- JS truthiness of an optional string field (`undefined` and `""` are falsy). -/
def truthyStr : Option String → Bool
  | none => false
  | some s => s != ""

/-- JS truthiness of an optional numeric field (`undefined` and `0` are falsy). -/
def truthyNum : Option ℚ → Bool
  | none => false
  | some q => decide (q ≠ 0)

/-- Module constant `base` (src/index.js line 21). -/
def base : String := "electrical.switches.hue"

/-- Module constant `colorModeMap` (src/index.js lines 22-26), as the partial
map an object-literal lookup realises. -/
def colorModeMap (cm : String) : Option String :=
  if cm = "hs" then some "hsb"
  else if cm = "ct" then some "temperature"
  else if cm = "xy" then some "cie"
  else none

/-- Value of the JS expression `colorModeMap[cm]`: a missing key yields
`undefined`. -/
def colorModeVal (cm : String) : JsVal :=
  match colorModeMap cm with
  | some s => JsVal.str s
  | none => JsVal.undef

/-- Model of the external `camelcase` npm package, adequate for the display
names appearing in this development: drops `-`, `_`, `.` and space
separators, upper-cases the letter after a separator, and lower-cases the
leading character. -/
def camelCaseChars : List Char → Bool → List Char
  | [], _ => []
  | c :: rest, up =>
    if c = '-' ∨ c = '_' ∨ c = ' ' ∨ c = '.' then camelCaseChars rest true
    else (if up then c.toUpper else c) :: camelCaseChars rest false

/-- See `camelCaseChars`. -/
def camelCase (s : String) : String :=
  match s.toList with
  | [] => ""
  | c :: rest => String.mk (c.toLower :: camelCaseChars rest false)

/-- The fields of a device record's `state` (or `action`) object that
src/index.js reads.  Absent numeric fields are `none`. -/
structure StateObj where
  «on» : Bool
  any_on : Bool
  bri : ℚ
  colormode : Option String
  hue : Option ℚ
  sat : Option ℚ
  ct : Option ℚ
  xy : Option (ℚ × ℚ)

/-- One keyed device record of the fetched body, with the fields
src/index.js reads: `name`, `modelid`, `state`, and (for group-type records)
`action`. -/
structure LightRecord where
  name : String
  modelid : String
  state : StateObj
  action : Option StateObj

/-- The `getAlarmDelta` helper (src/index.js lines 203-221). -/
def getAlarmDelta (path state message : String) : Delta :=
  { updates :=
      [ [ { path := path,
            value := JsVal.obj
              [ ("state", JsVal.str state),
                ("method", JsVal.arr [JsVal.str "visual", JsVal.str "sound"]),
                ("message", JsVal.str message) ] } ] ] }

/-- The value of the identifier `hueType` in the module scope of
src/index.js: it is read at lines 94 and 98 but declared and assigned
nowhere in the file, so resolving it throws a `ReferenceError`. -/
def hueTypeBinding : Option String := none

/-- The `values` array built for one device record by the success branch of
`loadInfo` (src/index.js lines 91-156), given a resolved `hueType`.  For
`hueType = "groups"` the effective state object is `light.action` and the
boolean comes from `light.state.any_on`; otherwise the state object is
`light.state` and the boolean is `light.state.on`.  An absent `action` makes
the later `state.bri` access throw. -/
def recordValues (hueType : String) (light : LightRecord) :
    Except String (List PathValue) :=
  let displayName := light.name
  let path := base ++ "." ++ hueType ++ "." ++ camelCase displayName
  let stateOn : Option StateObj × JsVal :=
    if hueType = "groups" then (light.action, JsVal.bool light.state.any_on)
    else (some light.state, JsVal.bool light.state.«on»)
  match stateOn.1 with
  | none =>
    Except.error "TypeError: Cannot read properties of undefined (reading bri)"
  | some state =>
    let values : List PathValue :=
      [ { path := path ++ ".state", value := stateOn.2 },
        { path := path ++ ".dimmingLevel", value := JsVal.num (state.bri / 255) },
        { path := path ++ ".meta",
          value := JsVal.obj
            [ ("type", JsVal.str "dimmer"),
              ("displayName", JsVal.str displayName),
              ("hueModel", JsVal.str light.modelid),
              ("canDimWhenOff", JsVal.bool false) ] } ]
    let colorValues : List PathValue :=
      if truthyStr state.colormode then
        { path := path ++ ".colorMode",
          value := colorModeVal (state.colormode.getD "") } ::
        ((if truthyNum state.hue && truthyNum state.sat then
            [ { path := path ++ ".hue",
                value := JsVal.num (state.hue.getD 0 / (18204 / 100) / 360) },
              { path := path ++ ".saturation",
                value := JsVal.num (state.sat.getD 0 / 255) } ]
          else []) ++
         (if truthyNum state.ct then
            [ { path := path ++ ".temperature",
                value := JsVal.num (1000000 / state.ct.getD 0) } ]
          else []) ++
         (match state.xy with
          | some p =>
            [ { path := path ++ ".cie",
                value := JsVal.obj [("x", JsVal.num p.1), ("y", JsVal.num p.2)] } ]
          | none => []))
      else []
    Except.ok (values ++ colorValues)

/-- Translation of one device record as the shipped module performs it: the
body of the forEach callback first resolves the free identifier `hueType`
(line 94), which throws when the binding is absent. -/
def translateRecord (hueTypeB : Option String) (light : LightRecord) :
    Except String (List PathValue) :=
  match hueTypeB with
  | none => Except.error "ReferenceError: hueType is not defined"
  | some h => recordValues h light

/-- The `_.keys(body).forEach(...)` loop: one `app.handleMessage` delta per
record, in order, stopping at the first uncaught exception. -/
def translateAll (hueTypeB : Option String) :
    List (String × LightRecord) → List Delta × Option String
  | [] => ([], none)
  | (_, light) :: rest =>
    match translateRecord hueTypeB light with
    | Except.error e => ([], some e)
    | Except.ok vs =>
      let (ds, th) := translateAll hueTypeB rest
      ({ updates := [vs] } :: ds, th)

/-- The module-level mutable state of one plugin instance:
`var statusMessage` and `var sentUnavailableAlarm` (src/index.js
lines 31-32), both initially `undefined`. -/
structure PluginState where
  statusMessage : Option String
  sentUnavailableAlarm : Option Bool

/-- Both variables are `undefined` when the module factory returns. -/
def initialState : PluginState := ⟨none, none⟩

/-- The accessor `plugin.statusMessage = () => statusMessage`
(src/index.js lines 50-52). -/
def pluginStatusMessage (st : PluginState) : Option String :=
  st.statusMessage

/-- The error object passed to a `request` callback (truthy when present). -/
structure RequestError where
  message : String

/-- The response object passed to a `request` callback. -/
structure Response where
  statusCode : Int

/-- The `(error, response, body)` triple one fetch hands to the `loadInfo`
callback; the body is embedded as the keyed record collection the code
treats it as. -/
structure CallbackInput where
  error : Option RequestError
  response : Option Response
  body : List (String × LightRecord)

/-- The observable outcome of one `loadInfo` callback run: the
`app.handleMessage` calls in order, the module state afterwards, and the
uncaught exception that aborted the rest of the callback, if any. -/
structure TickResult where
  published : List Delta
  state : PluginState
  thrown : Option String

/-- The failure branch of the callback (src/index.js lines 166-174): publish
the alert alarm delta, set `sentUnavailableAlarm = true`, then
`printRequestError(error, response)` — which reads `error.message` and
therefore throws a `TypeError` when `error` is `null` (the non-200 case),
leaving `statusMessage` unset; with a truthy error it sets `statusMessage`
to `"error: " ++ message` (via `setProviderError`, lines 40-44). -/
def failureBranch (error : Option RequestError) (st : PluginState) : TickResult :=
  let published :=
    [getAlarmDelta "notifications.redhead.daqUnavailable" "alert"
      "The DAQ module is unavailable"]
  let st1 : PluginState := { st with sentUnavailableAlarm := some true }
  match error with
  | none =>
    { published := published, state := st1,
      thrown := some "TypeError: Cannot read properties of null (reading message)" }
  | some e =>
    { published := published,
      state := { st1 with statusMessage := some ("error: " ++ e.message) },
      thrown := none }

/-- The success branch of the callback (src/index.js lines 78-165): set
`statusMessage` to `"Connected to <ip>"`, publish the normal alarm delta and
clear the flag when `sentUnavailableAlarm` is truthy, then run the record
loop. -/
def successBranch (hueTypeB : Option String) (ip : String)
    (body : List (String × LightRecord)) (st : PluginState) : TickResult :=
  let st1 : PluginState := { st with statusMessage := some ("Connected to " ++ ip) }
  if truthyBool st1.sentUnavailableAlarm then
    { published :=
        getAlarmDelta "notifications.redhead.daqUnavailable" "normal"
          "The DAQ module is now available" :: (translateAll hueTypeB body).1,
      state := { st1 with sentUnavailableAlarm := some false },
      thrown := (translateAll hueTypeB body).2 }
  else
    { published := (translateAll hueTypeB body).1,
      state := st1,
      thrown := (translateAll hueTypeB body).2 }

/-- One run of the `request` callback of `loadInfo` (src/index.js
lines 77-175), parameterised by the `hueType` binding: the guard is
`!error && response.statusCode === 200`. -/
def loadInfoTick (hueTypeB : Option String) (ip : String)
    (input : CallbackInput) (st : PluginState) : TickResult :=
  match input.error with
  | some e => failureBranch (some e) st
  | none =>
    match input.response with
    | none =>
      { published := [], state := st,
        thrown := some "TypeError: Cannot read properties of undefined (reading statusCode)" }
    | some r =>
      if r.statusCode = 200 then successBranch hueTypeB ip input.body st
      else failureBranch none st

/-- `loadInfo` as shipped: the callback runs with the module's actual (absent)
`hueType` binding. -/
def loadInfo (ip : String) (input : CallbackInput) (st : PluginState) :
    TickResult :=
  loadInfoTick hueTypeBinding ip input st

/-- Module state after a sequence of callback completions, starting from the
freshly constructed plugin. -/
def runTicks (ip : String) (inputs : List CallbackInput) : PluginState :=
  inputs.foldl (fun st i => (loadInfo ip i st).state) initialState

/-- The start configuration: `{address, refreshRate}` (src/index.js schema,
lines 182-198). -/
structure Props where
  address : String
  refreshRate : Option ℚ

/-- The JS expression `(props.refreshRate || 5)` of src/index.js line 69:
an absent or zero refresh rate falls back to 5. -/
def refreshOr (r : Option ℚ) : ℚ :=
  match r with
  | some q => if q = 0 then 5 else q
  | none => 5

/-- The timer period expression `(props.refreshRate || 5) * 1000` of
src/index.js line 69, in milliseconds. -/
def refreshIntervalMs (props : Props) : ℚ :=
  refreshOr props.refreshRate * 1000

/-- The identifiers bound to values in the scope of `startLoading`
(src/index.js lines 65-71): the module-level declarations of lines 16-63 and
178-199, the parameters, and the requires.  `load`, called at line 66, is
not among them. -/
def startLoadingScope : List String :=
  ["fs", "_", "request", "camelCase", "base", "colorModeMap", "app",
   "plugin", "onStop", "statusMessage", "sentUnavailableAlarm",
   "setProviderStatus", "setProviderError", "printRequestError",
   "startLoading", "loadInfo", "getAlarmDelta", "props", "ip"]

/-- The outcome of `plugin.start` → `startLoading` (src/index.js
lines 46-48 and 65-71): how many immediate fetch cycles ran, the interval of
the armed repeating timer (if one was armed), and the exception thrown, if
any. -/
structure StartResult where
  immediateTicks : Nat
  intervalMs : Option ℚ
  thrown : Option String

/-- `startLoading(props, ip)` (src/index.js lines 65-71): line 66 calls
`load(props, ip)`; when `load` is not in scope this throws a
`ReferenceError` before `setInterval` at line 67 is reached, so no immediate
cycle runs and no timer is armed. -/
def startLoading (props : Props) : StartResult :=
  if startLoadingScope.contains "load" then
    { immediateTicks := 1,
      intervalMs := some (refreshIntervalMs props),
      thrown := none }
  else
    { immediateTicks := 0, intervalMs := none,
      thrown := some "ReferenceError: load is not defined" }

/-- The path the availability alarm is published at. -/
def daqAlarmPath : String := "notifications.redhead.daqUnavailable"

/-- All observations at the availability-alarm path contained in a list of
published deltas, in order. -/
def alarmObservations (ds : List Delta) : List PathValue :=
  (((ds.map Delta.updates).flatten).flatten).filter (fun pv => pv.path == daqAlarmPath)

/-- The list of observations of a successful translation, `[]` on a throw. -/
def okValues : Except String (List PathValue) → List PathValue
  | Except.ok vs => vs
  | Except.error _ => []

/-- First observation value at a given path, if any. -/
def findValue (vs : List PathValue) (p : String) : Option JsVal :=
  match vs.find? (fun pv => pv.path == p) with
  | some pv => some pv.value
  | none => none

/-- A callback input that takes the failure branch: a truthy error, or a
null error together with a response whose status is not 200. -/
def isFailing (input : CallbackInput) : Prop :=
  (∃ e, input.error = some e) ∨
    (input.error = none ∧ ∃ r, input.response = some r ∧ r.statusCode ≠ 200)

/-- A callback input that takes the success branch: no error and a response
with status 200. -/
def isSuccess (input : CallbackInput) : Prop :=
  input.error = none ∧ ∃ r, input.response = some r ∧ r.statusCode = 200

/-- The device record of the spec's scenario:
`{name:"Lamp1", state:{on:true, bri:128, colormode:"hs", hue:10000, sat:200}}`. -/
def lamp1 : LightRecord :=
  { name := "Lamp1", modelid := "LCT007",
    state := { «on» := true, any_on := false, bri := 128,
               colormode := some "hs", hue := some 10000, sat := some 200,
               ct := none, xy := none },
    action := none }

/-- A group-style device record with `state.any_on = false` and an `action`
object carrying the brightness, as the spec's group scenario describes. -/
def deckLights : LightRecord :=
  { name := "Deck Lights", modelid := "LCT003",
    state := { «on» := false, any_on := false, bri := 0,
               colormode := none, hue := none, sat := none,
               ct := none, xy := none },
    action := some { «on» := true, any_on := true, bri := 100,
                     colormode := none, hue := none, sat := none,
                     ct := none, xy := none } }

/-- A device record whose `colormode` is a value outside the
`colorModeMap` table. -/
def weirdLamp : LightRecord :=
  { name := "Weird Lamp", modelid := "LCT002",
    state := { «on» := true, any_on := false, bri := 10,
               colormode := some "weird", hue := none, sat := none,
               ct := none, xy := none },
    action := none }

/-- A device record with a colour temperature and `colormode = "ct"`. -/
def ctLamp : LightRecord :=
  { name := "Ct Lamp", modelid := "LTW001",
    state := { «on» := true, any_on := false, bri := 50,
               colormode := some "ct", hue := none, sat := none,
               ct := some 300, xy := none },
    action := none }

/-- A device record with a colour temperature present but no `colormode`. -/
def ctNoColormode : LightRecord :=
  { name := "Bare Ct", modelid := "LTW004",
    state := { «on» := true, any_on := false, bri := 50,
               colormode := none, hue := none, sat := none,
               ct := some 400, xy := none },
    action := none }

/-- Any failing callback input routes the tick through `failureBranch`,
with the callback's error object. -/
theorem loadInfoTick_failing (hueTypeB : Option String) (ip : String)
    (input : CallbackInput) (st : PluginState) (hfail : isFailing input) :
    loadInfoTick hueTypeB ip input st = failureBranch input.error st := by
  rcases hfail with ⟨e, he⟩ | ⟨he, r, hr, hne⟩
  · simp [loadInfoTick, he]
  · simp [loadInfoTick, he, hr, hne]

/-- Any successful callback input routes the tick through `successBranch`. -/
theorem loadInfoTick_success (hueTypeB : Option String) (ip : String)
    (input : CallbackInput) (st : PluginState) (hsucc : isSuccess input) :
    loadInfoTick hueTypeB ip input st = successBranch hueTypeB ip input.body st := by
  obtain ⟨he, r, hr, h200⟩ := hsucc
  simp [loadInfoTick, he, hr, h200]

/-- With the module's absent `hueType` binding, the record loop publishes
nothing: the first record (if any) throws before its `handleMessage` call. -/
theorem translateAll_none_published (body : List (String × LightRecord)) :
    (translateAll hueTypeBinding body).1 = [] := by
  cases body with
  | nil => rfl
  | cons p rest => rfl

/-- The failure branch always publishes exactly the alert delta and sets the
flag, whatever the prior state and error object. -/
theorem failureBranch_published (e? : Option RequestError) (st : PluginState) :
    alarmObservations (failureBranch e? st).published =
      [ { path := "notifications.redhead.daqUnavailable",
          value := JsVal.obj
            [ ("state", JsVal.str "alert"),
              ("method", JsVal.arr [JsVal.str "visual", JsVal.str "sound"]),
              ("message", JsVal.str "The DAQ module is unavailable") ] } ] ∧
    (failureBranch e? st).state.sentUnavailableAlarm = some true := by
  cases e? <;> exact ⟨rfl, rfl⟩

/-- C2: the claim says `start(config)` performs one immediate
fetch-translate-publish cycle and then arms a timer firing every
`refreshIntervalSeconds` (default 5) seconds.  In the code, `startLoading`
first calls `load(props, ip)` (line 66), but no `load` is in scope, so the
call throws a ReferenceError before `setInterval` is reached: zero immediate
cycles run and no timer is armed, for every configuration.  The last
conjunct records that the line-69 interval expression would indeed default
to 5000 ms when `refreshRate` is omitted. -/
theorem C2_start_throws_before_any_cycle (props : Props) :
    (startLoading props).thrown = some "ReferenceError: load is not defined" ∧
    (startLoading props).immediateTicks = 0 ∧
    (startLoading props).intervalMs = none ∧
    refreshIntervalMs { address := props.address, refreshRate := none } = 5000 :=
  ⟨rfl, rfl, rfl, by norm_num [refreshIntervalMs, refreshOr]⟩

/-- C10: before any fetch callback has completed, `plugin.statusMessage()`
returns `undefined`: the module variable starts out unset, a run of zero
ticks leaves it unset, and `start` completes no immediate cycle that could
set it. -/
theorem C10_status_undefined_before_first_tick :
    pluginStatusMessage initialState = none ∧
    (∀ ip, pluginStatusMessage (runTicks ip []) = none) ∧
    (∀ props, (startLoading props).immediateTicks = 0) :=
  ⟨rfl, fun _ => rfl, fun _ => rfl⟩

/-- C8: the claim says a non-200 response is handled identically to a
transport error, with the status message set to `"error: <message>"` and no
error escaping.  In the code, a non-200 tick does publish the alert and set
the flag, but `printRequestError` then reads `error.message` on the `null`
error object, so a TypeError is thrown out of the callback and
`statusMessage` is never set — unlike the transport-error tick, which sets
`statusMessage` and throws nothing. -/
theorem C8_http_status_handled_unlike_transport_error :
    (loadInfo "10.0.0.1" ⟨none, some ⟨500⟩, []⟩ initialState).published =
      [getAlarmDelta "notifications.redhead.daqUnavailable" "alert"
        "The DAQ module is unavailable"] ∧
    (loadInfo "10.0.0.1" ⟨none, some ⟨500⟩, []⟩ initialState).state.sentUnavailableAlarm =
      some true ∧
    (loadInfo "10.0.0.1" ⟨none, some ⟨500⟩, []⟩ initialState).state.statusMessage = none ∧
    (loadInfo "10.0.0.1" ⟨none, some ⟨500⟩, []⟩ initialState).thrown =
      some "TypeError: Cannot read properties of null (reading message)" ∧
    (loadInfo "10.0.0.1" ⟨some ⟨"connect ECONNREFUSED"⟩, none, []⟩
        initialState).state.statusMessage = some "error: connect ECONNREFUSED" ∧
    (loadInfo "10.0.0.1" ⟨some ⟨"connect ECONNREFUSED"⟩, none, []⟩
        initialState).thrown = none :=
  ⟨rfl, rfl, rfl, rfl, rfl, rfl⟩

/-- C5: the claim says a record from the "groups" collection is translated
using `action` as the state source, `any_on` as the boolean, and a `groups`
path segment.  In the code, the record loop reads the undeclared identifier
`hueType` (line 94) and throws a ReferenceError before emitting anything, so
a successful tick over a group record publishes nothing.  The last conjunct
shows that the translation with the entity kind resolved to `"groups"` —
what lines 98-104 spell out — would produce exactly the claimed
observations: state `false` from `state.any_on`, brightness from the
`action` object, path segment `groups`. -/
theorem C5_groups_record_translation :
    translateRecord hueTypeBinding deckLights =
      Except.error "ReferenceError: hueType is not defined" ∧
    (successBranch hueTypeBinding "10.0.0.1" [("1", deckLights)] initialState).published =
      [] ∧
    (successBranch hueTypeBinding "10.0.0.1" [("1", deckLights)] initialState).thrown =
      some "ReferenceError: hueType is not defined" ∧
    recordValues "groups" deckLights = Except.ok
      [ { path := "electrical.switches.hue.groups.deckLights.state",
          value := JsVal.bool false },
        { path := "electrical.switches.hue.groups.deckLights.dimmingLevel",
          value := JsVal.num (100 / 255) },
        { path := "electrical.switches.hue.groups.deckLights.meta",
          value := JsVal.obj
            [ ("type", JsVal.str "dimmer"),
              ("displayName", JsVal.str "Deck Lights"),
              ("hueModel", JsVal.str "LCT003"),
              ("canDimWhenOff", JsVal.bool false) ] } ] :=
  ⟨rfl, rfl, rfl, rfl⟩

/-- C6: the claim says every record of a successful tick yields `state`,
`dimmingLevel` and `meta` observations, and that the Lamp1 scenario yields
the listed values.  In the code, translating any record — Lamp1 included —
throws the `hueType` ReferenceError before any observation is emitted.  The
remaining conjuncts show the translation with the entity kind resolved to
`"lights"` would produce exactly the observations lines 106-141 spell out:
state `true`, dimmingLevel `128/255` (≈ 0.502), the meta object, colorMode
`"hsb"`, hue `10000/182.04/360 = 6250/40959` (≈ 0.1526) and saturation
`200/255 = 40/51` (≈ 0.784). -/
theorem C6_lamp1_translation :
    translateRecord hueTypeBinding lamp1 =
      Except.error "ReferenceError: hueType is not defined" ∧
    (successBranch hueTypeBinding "10.0.0.1" [("1", lamp1)] initialState).published =
      [] ∧
    recordValues "lights" lamp1 = Except.ok
      [ { path := "electrical.switches.hue.lights.lamp1.state",
          value := JsVal.bool true },
        { path := "electrical.switches.hue.lights.lamp1.dimmingLevel",
          value := JsVal.num (128 / 255) },
        { path := "electrical.switches.hue.lights.lamp1.meta",
          value := JsVal.obj
            [ ("type", JsVal.str "dimmer"),
              ("displayName", JsVal.str "Lamp1"),
              ("hueModel", JsVal.str "LCT007"),
              ("canDimWhenOff", JsVal.bool false) ] },
        { path := "electrical.switches.hue.lights.lamp1.colorMode",
          value := JsVal.str "hsb" },
        { path := "electrical.switches.hue.lights.lamp1.hue",
          value := JsVal.num (10000 / (18204 / 100) / 360) },
        { path := "electrical.switches.hue.lights.lamp1.saturation",
          value := JsVal.num (200 / 255) } ] ∧
    (10000 / ((18204 : ℚ) / 100) / 360 : ℚ) = 6250 / 40959 ∧
    ((200 : ℚ) / 255 : ℚ) = 40 / 51 :=
  ⟨rfl, rfl, rfl, by norm_num, by norm_num⟩

/-- C3: a failing fetch tick that starts with the availability flag unset
publishes exactly one alarm observation, at
`notifications.redhead.daqUnavailable`, with state `"alert"`, method
`["visual","sound"]` and message `"The DAQ module is unavailable"`, and the
flag is `true` after the tick. -/
theorem C3_failing_tick_while_available (ip : String) (st : PluginState)
    (input : CallbackInput)
    (_hflag : truthyBool st.sentUnavailableAlarm = false)
    (hfail : isFailing input) :
    alarmObservations (loadInfo ip input st).published =
      [ { path := "notifications.redhead.daqUnavailable",
          value := JsVal.obj
            [ ("state", JsVal.str "alert"),
              ("method", JsVal.arr [JsVal.str "visual", JsVal.str "sound"]),
              ("message", JsVal.str "The DAQ module is unavailable") ] } ] ∧
    (loadInfo ip input st).state.sentUnavailableAlarm = some true := by
  have h := loadInfoTick_failing hueTypeBinding ip input st hfail
  unfold loadInfo
  rw [h]
  exact failureBranch_published input.error st

/-- Witness for C3: a transport-error tick from the fresh plugin state. -/
theorem C3_witness :
    alarmObservations (loadInfo "10.0.0.1"
        ⟨some ⟨"connect ECONNREFUSED"⟩, none, []⟩ ⟨none, none⟩).published =
      [ { path := "notifications.redhead.daqUnavailable",
          value := JsVal.obj
            [ ("state", JsVal.str "alert"),
              ("method", JsVal.arr [JsVal.str "visual", JsVal.str "sound"]),
              ("message", JsVal.str "The DAQ module is unavailable") ] } ] ∧
    (loadInfo "10.0.0.1" ⟨some ⟨"connect ECONNREFUSED"⟩, none, []⟩
        ⟨none, none⟩).state.sentUnavailableAlarm = some true :=
  C3_failing_tick_while_available "10.0.0.1" ⟨none, none⟩
    ⟨some ⟨"connect ECONNREFUSED"⟩, none, []⟩ rfl (Or.inl ⟨_, rfl⟩)

/-- C4: a successful fetch tick that starts with the availability flag set
publishes exactly one alarm observation — the `"normal"` /
`"The DAQ module is now available"` one — clears the flag, and sets the
status message to `"Connected to <address>"`; a successful tick with the
flag clear publishes no alarm observation at all. -/
theorem C4_successful_tick_transitions (ip : String) (st : PluginState)
    (input : CallbackInput) (hsucc : isSuccess input) :
    (truthyBool st.sentUnavailableAlarm = true →
      alarmObservations (loadInfo ip input st).published =
        [ { path := "notifications.redhead.daqUnavailable",
            value := JsVal.obj
              [ ("state", JsVal.str "normal"),
                ("method", JsVal.arr [JsVal.str "visual", JsVal.str "sound"]),
                ("message", JsVal.str "The DAQ module is now available") ] } ] ∧
      (loadInfo ip input st).state.sentUnavailableAlarm = some false ∧
      (loadInfo ip input st).state.statusMessage = some ("Connected to " ++ ip)) ∧
    (truthyBool st.sentUnavailableAlarm = false →
      alarmObservations (loadInfo ip input st).published = []) := by
  have h := loadInfoTick_success hueTypeBinding ip input st hsucc
  have hrec := translateAll_none_published input.body
  unfold loadInfo
  rw [h]
  constructor
  · intro hflag
    refine ⟨?_, ?_, ?_⟩ <;>
      simp [successBranch, hflag, hrec, alarmObservations, getAlarmDelta,
        daqAlarmPath]
  · intro hflag
    simp [successBranch, hflag, hrec, alarmObservations]

/-- Witness for C4: a 200-status tick while the flag is set. -/
theorem C4_witness :
    alarmObservations (loadInfo "10.0.0.1" ⟨none, some ⟨200⟩, []⟩
        ⟨some "error: connect ECONNREFUSED", some true⟩).published =
      [ { path := "notifications.redhead.daqUnavailable",
          value := JsVal.obj
            [ ("state", JsVal.str "normal"),
              ("method", JsVal.arr [JsVal.str "visual", JsVal.str "sound"]),
              ("message", JsVal.str "The DAQ module is now available") ] } ] ∧
    (loadInfo "10.0.0.1" ⟨none, some ⟨200⟩, []⟩
        ⟨some "error: connect ECONNREFUSED", some true⟩).state.sentUnavailableAlarm =
      some false ∧
    (loadInfo "10.0.0.1" ⟨none, some ⟨200⟩, []⟩
        ⟨some "error: connect ECONNREFUSED", some true⟩).state.statusMessage =
      some ("Connected to " ++ "10.0.0.1") :=
  (C4_successful_tick_transitions "10.0.0.1"
    ⟨some "error: connect ECONNREFUSED", some true⟩ ⟨none, some ⟨200⟩, []⟩
    ⟨rfl, ⟨200⟩, rfl, rfl⟩).1 rfl

/-- C1 counterexample: a failing tick while the flag is already `true`
(state already Unavailable) still publishes one alarm observation — the
claim says zero are published on such a tick. -/
theorem C1_counterexample :
    truthyBool (PluginState.mk none (some true)).sentUnavailableAlarm = true ∧
    (alarmObservations (loadInfo "10.0.0.1"
        ⟨some ⟨"connect ECONNREFUSED"⟩, none, []⟩
        ⟨none, some true⟩).published).length = 1 ∧
    alarmObservations (loadInfo "10.0.0.1"
        ⟨some ⟨"connect ECONNREFUSED"⟩, none, []⟩
        ⟨none, some true⟩).published ≠ [] := by
  refine ⟨rfl, rfl, ?_⟩
  intro hnil
  have hlen : (alarmObservations (loadInfo "10.0.0.1"
      ⟨some ⟨"connect ECONNREFUSED"⟩, none, []⟩
      ⟨none, some true⟩).published).length = 1 := rfl
  rw [hnil] at hlen
  simp at hlen

/-- C1 amended: a failing fetch tick publishes exactly one alert alarm
observation even when the availability state is already Unavailable — the
alert is re-emitted on every failing tick, not once per availability edge;
only the recovery (`"normal"`) alarm is edge-triggered, and a successful
tick while already Available publishes no alarm observation. -/
theorem C1_alert_republished_every_failing_tick :
    (∀ (ip : String) (st : PluginState) (input : CallbackInput),
      truthyBool st.sentUnavailableAlarm = true → isFailing input →
      alarmObservations (loadInfo ip input st).published =
        [ { path := "notifications.redhead.daqUnavailable",
            value := JsVal.obj
              [ ("state", JsVal.str "alert"),
                ("method", JsVal.arr [JsVal.str "visual", JsVal.str "sound"]),
                ("message", JsVal.str "The DAQ module is unavailable") ] } ] ∧
      (loadInfo ip input st).state.sentUnavailableAlarm = some true) ∧
    (∀ (ip : String) (st : PluginState) (input : CallbackInput),
      truthyBool st.sentUnavailableAlarm = false → isSuccess input →
      alarmObservations (loadInfo ip input st).published = []) := by
  constructor
  · intro ip st input _hflag hfail
    have h := loadInfoTick_failing hueTypeBinding ip input st hfail
    unfold loadInfo
    rw [h]
    exact failureBranch_published input.error st
  · intro ip st input hflag hsucc
    have h := loadInfoTick_success hueTypeBinding ip input st hsucc
    have hrec := translateAll_none_published input.body
    unfold loadInfo
    rw [h]
    simp [successBranch, hflag, hrec, alarmObservations]

/-- Witness for C1's amended statement: a non-200 tick while the flag is
already set publishes one alert; a 200 tick while the flag is clear
publishes no alarm observation. -/
theorem C1_witness :
    (alarmObservations (loadInfo "10.0.0.1" ⟨none, some ⟨500⟩, []⟩
        ⟨none, some true⟩).published =
      [ { path := "notifications.redhead.daqUnavailable",
          value := JsVal.obj
            [ ("state", JsVal.str "alert"),
              ("method", JsVal.arr [JsVal.str "visual", JsVal.str "sound"]),
              ("message", JsVal.str "The DAQ module is unavailable") ] } ] ∧
     (loadInfo "10.0.0.1" ⟨none, some ⟨500⟩, []⟩
        ⟨none, some true⟩).state.sentUnavailableAlarm = some true) ∧
    alarmObservations (loadInfo "10.0.0.1" ⟨none, some ⟨200⟩, []⟩
        ⟨none, some false⟩).published = [] :=
  ⟨C1_alert_republished_every_failing_tick.1 "10.0.0.1" ⟨none, some true⟩
      ⟨none, some ⟨500⟩, []⟩ rfl (Or.inr ⟨rfl, ⟨500⟩, rfl, by decide⟩),
   C1_alert_republished_every_failing_tick.2 "10.0.0.1" ⟨none, some false⟩
      ⟨none, some ⟨200⟩, []⟩ rfl ⟨rfl, ⟨200⟩, rfl, rfl⟩⟩

/-- C7 counterexample: a record whose `colormode` is present (value
`"weird"`, outside the map) gets no colorMode observation at all — the
translation throws the `hueType` ReferenceError first — and even the
resolved translation would give the observation the JS `undefined` value,
which is not an `"unrecognized"` string sentinel. -/
theorem C7_counterexample :
    translateRecord hueTypeBinding weirdLamp =
      Except.error "ReferenceError: hueType is not defined" ∧
    findValue (okValues (recordValues "lights" weirdLamp))
      "electrical.switches.hue.lights.weirdLamp.colorMode" = some JsVal.undef ∧
    JsVal.undef ≠ JsVal.str "unrecognized" := by
  refine ⟨rfl, rfl, ?_⟩
  intro hcontra
  exact JsVal.noConfusion hcontra

/-- C7 amended: the shipped translation never emits a colorMode observation
(every record throws the `hueType` ReferenceError); in the translation with
the entity kind resolved (here `"lights"`), a record with a truthy
`colormode` gets a `<path>.colorMode` observation whose value is the
`colorModeMap` lookup — `"hsb"`, `"temperature"` or `"cie"` for the known
keys, and the JS `undefined` value (not an `"unrecognized"` sentinel) for
any other key. -/
theorem C7_colorMode_value_from_map (r : LightRecord) (cm : String)
    (hcm : r.state.colormode = some cm) (hne : cm ≠ "") :
    translateRecord hueTypeBinding r =
      Except.error "ReferenceError: hueType is not defined" ∧
    (okValues (recordValues "lights" r))[3]? =
      some { path := base ++ "." ++ "lights" ++ "." ++ camelCase r.name ++ ".colorMode",
             value := colorModeVal cm } := by
  refine ⟨rfl, ?_⟩
  simp [recordValues, okValues, hcm, truthyStr, hne]

/-- Witness for C7's amended statement: the `"weird"` colormode record. -/
theorem C7_witness :
    translateRecord hueTypeBinding weirdLamp =
      Except.error "ReferenceError: hueType is not defined" ∧
    (okValues (recordValues "lights" weirdLamp))[3]? =
      some { path := base ++ "." ++ "lights" ++ "." ++ camelCase weirdLamp.name ++ ".colorMode",
             value := colorModeVal "weird" } :=
  C7_colorMode_value_from_map weirdLamp "weird" rfl (by decide)

/-- C9 counterexample: a record with `ct` present yields no temperature
observation in the shipped code (the `hueType` ReferenceError aborts the
record), and even the resolved translation emits none when `colormode` is
absent — `ct` alone is not enough, contradicting "regardless of the other
state fields". -/
theorem C9_counterexample :
    translateRecord hueTypeBinding ctLamp =
      Except.error "ReferenceError: hueType is not defined" ∧
    recordValues "lights" ctNoColormode = Except.ok
      [ { path := "electrical.switches.hue.lights.bareCt.state",
          value := JsVal.bool true },
        { path := "electrical.switches.hue.lights.bareCt.dimmingLevel",
          value := JsVal.num (50 / 255) },
        { path := "electrical.switches.hue.lights.bareCt.meta",
          value := JsVal.obj
            [ ("type", JsVal.str "dimmer"),
              ("displayName", JsVal.str "Bare Ct"),
              ("hueModel", JsVal.str "LTW004"),
              ("canDimWhenOff", JsVal.bool false) ] } ] ∧
    findValue (okValues (recordValues "lights" ctNoColormode))
      "electrical.switches.hue.lights.bareCt.temperature" = none :=
  ⟨rfl, rfl, rfl⟩

/-- C9 amended: the shipped code emits no temperature observation for any
record (the `hueType` ReferenceError aborts every record); in the
translation with the entity kind resolved, `<path>.temperature =
1000000/ct` is emitted only when `colormode` is truthy and `ct` is truthy
(present and nonzero) — with a falsy `colormode`, only the `state`,
`dimmingLevel` and `meta` observations are produced, whatever `ct` holds. -/
theorem C9_temperature_requires_colormode (r : LightRecord) :
    translateRecord hueTypeBinding r =
      Except.error "ReferenceError: hueType is not defined" ∧
    (∀ q, r.state.ct = some q → q ≠ 0 → truthyStr r.state.colormode = true →
      ({ path := base ++ "." ++ "lights" ++ "." ++ camelCase r.name ++ ".temperature",
         value := JsVal.num (1000000 / q) } : PathValue) ∈
        okValues (recordValues "lights" r)) ∧
    (truthyStr r.state.colormode = false →
      okValues (recordValues "lights" r) =
        [ { path := base ++ "." ++ "lights" ++ "." ++ camelCase r.name ++ ".state",
            value := JsVal.bool r.state.«on» },
          { path := base ++ "." ++ "lights" ++ "." ++ camelCase r.name ++ ".dimmingLevel",
            value := JsVal.num (r.state.bri / 255) },
          { path := base ++ "." ++ "lights" ++ "." ++ camelCase r.name ++ ".meta",
            value := JsVal.obj
              [ ("type", JsVal.str "dimmer"),
                ("displayName", JsVal.str r.name),
                ("hueModel", JsVal.str r.modelid),
                ("canDimWhenOff", JsVal.bool false) ] } ]) := by
  refine ⟨rfl, ?_, ?_⟩
  · intro q hq hq0 hcm
    simp [recordValues, okValues, hcm, truthyNum, hq, hq0]
  · intro hcm
    simp [recordValues, okValues, hcm]

/-- Witness for C9's amended statement: the `"ct"` colormode record with
mired 300 yields a temperature observation of 1000000/300 Kelvin. -/
theorem C9_witness :
    ({ path := base ++ "." ++ "lights" ++ "." ++ camelCase ctLamp.name ++ ".temperature",
       value := JsVal.num (1000000 / 300) } : PathValue) ∈
      okValues (recordValues "lights" ctLamp) :=
  (C9_temperature_requires_colormode ctLamp).2.1 300 rfl (by norm_num) rfl

end RedheadDaq
